import Mathlib

set_option maxRecDepth 8000

/-!
Verification of the docktool repository's configuration-synthesis engine.

The Go sources are shallowly embedded: Go maps become association lists
(iteration order is the list order; Go's map iteration order is not
semantically meaningful here), file-system interaction is abstracted by a
`Probe` oracle describing the outcome of stat/open/scan on each candidate
environment file, and Go's Unicode string helpers are modelled on their
ASCII fragment (all strings handled by the tool are ASCII).
-/

namespace Docktool

/-- Characters treated as white space by the model of Go's
`strings.TrimSpace` (ASCII fragment of `unicode.IsSpace`). -/
def isGoSpace (c : Char) : Bool :=
  c = ' ' || c = '\t' || c = '\n' || c = '\x0b' || c = '\x0c' || c = '\r'

/-- Characters matched by `\s` in Go's `regexp` package: `[\t\n\f\r ]`. -/
def isRegexSpace (c : Char) : Bool :=
  c = '\t' || c = '\n' || c = '\x0c' || c = '\r' || c = ' '

/-- Model of Go's `strings.TrimSpace` (ASCII fragment). -/
def trimSpace (s : String) : String :=
  String.mk (((s.data.dropWhile isGoSpace).reverse.dropWhile isGoSpace).reverse)

/-- The quote characters trimmed from parsed env-file values:
Go's `strings.Trim(v, "\"'")` cutset. -/
def isQuoteChar (c : Char) : Bool :=
  c = '"' || c = '\''

/-- Model of `strings.Trim(v, "\"'")`: strip leading and trailing quotes. -/
def trimQuotes (s : String) : String :=
  String.mk (((s.data.dropWhile isQuoteChar).reverse.dropWhile isQuoteChar).reverse)

/-- ASCII lower-casing of a string, character by character (model of
`strings.ToLower` on ASCII input). -/
def toLowerStr (s : String) : String :=
  String.mk (s.data.map Char.toLower)

/-- Model of Go's `strings.EqualFold` on its ASCII fragment: equality up to
ASCII case. -/
def eqFold (a b : String) : Bool :=
  toLowerStr a == toLowerStr b

/-- Model of Go's `filepath.Base` for slash-separated relative paths:
empty path gives ".", a path of only slashes gives "/", otherwise the last
path element after trailing slashes are removed. -/
def baseName (path : String) : String :=
  if path = "" then "."
  else
    let trimmed := (path.data.reverse.dropWhile (· = '/')).reverse
    if trimmed = [] then "/"
    else String.mk ((trimmed.reverse.takeWhile (· ≠ '/')).reverse)

/-- `listContains pat l` holds when `pat` occurs as a contiguous run inside
`l`; this is the substring test underlying the model of Go's
`regexp.MatchString` on literal `(?i)` patterns. -/
def listContains (pat : List Char) : List Char → Bool
  | [] => pat.isEmpty
  | c :: rest => pat.isPrefixOf (c :: rest) || listContains pat rest

/-- Boolean substring test on strings. -/
def substrB (pat s : String) : Bool :=
  listContains pat.data s.data

/-- Concatenation of a list of strings, mirroring the Go loops that append
pieces to a `strings.Builder`. -/
def concatAll : List String → String
  | [] => ""
  | s :: rest => s ++ concatAll rest

/-- An environment mapping: association list with the Go map's semantics
(unique keys; assignment overwrites in place, new keys are appended). -/
abbrev EnvMap := List (String × String)

/-- Membership test for a key, mirroring `_, exists := m[k]`. -/
def hasKey (m : EnvMap) (k : String) : Bool :=
  m.any (fun kv => kv.1 == k)

/-- Lookup, mirroring `m[k]`. -/
def lookupEnv (m : EnvMap) (k : String) : Option String :=
  (m.find? (fun kv => kv.1 == k)).map (fun kv => kv.2)

/-- Assignment `m[k] = v`: overwrite the existing entry or append a new one. -/
def setEnv (m : EnvMap) (k v : String) : EnvMap :=
  if hasKey m k then m.map (fun kv => if kv.1 == k then (k, v) else kv)
  else m ++ [(k, v)]

/-- `ServiceConfig` from the source; never populated by any code path. -/
structure ServiceConfig where
  name : String
  baseImage : String
  ports : List String
  commands : List String
  environment : EnvMap
  dependencies : List String
deriving DecidableEq

/-- `DockerConfig` from the source. -/
structure DockerConfig where
  baseImage : String
  ports : List String
  commands : List String
  environment : EnvMap
  isCompose : Bool
  services : List (String × ServiceConfig)
deriving DecidableEq

/-- `EnvConfig` from the source; the Go field `variables` is named `vars`
here because `variables` is reserved in Lean. -/
structure EnvConfig where
  vars : EnvMap
  secrets : List String
deriving DecidableEq

/-- `NewEnvConfig()`. -/
def NewEnvConfig : EnvConfig :=
  { vars := [], secrets := [] }

/-- Outcome of probing one candidate environment file: `absent` models a
failing `os.Stat`; `openFail` models a successful stat whose `os.Open`
fails; `present lines scanErr` models a readable file yielding `lines`
from the scanner, with `scanErr` the truth of `scanner.Err() != nil`. -/
inductive Probe where
  | absent
  | openFail
  | present (lines : List String) (scanErr : Bool)
deriving DecidableEq

/-- The project-analyzer state that the claims depend on: the enumerated
relative file paths and the file-probing oracle. -/
structure FS where
  files : List String
  probe : String → Probe

/-- `hasFile` from the source: some enumerated file has a base name
case-insensitively equal to `filename`. -/
def hasFile (files : List String) (filename : String) : Bool :=
  files.any (fun file => eqFold (baseName file) filename)

/-- `hasAnyFile` from the source: some enumerated file's lower-cased path
ends with one of the given suffixes. -/
def hasAnyFile (files : List String) (extensions : List String) : Bool :=
  files.any (fun file => extensions.any (fun ext => ext.data.isSuffixOf (toLowerStr file).data))

/-- The fixed secret-name pattern list shared (verbatim, three times) by
`isLikelySecret`, `isSecretVariable` and `isSecret` in the source; the Go
patterns are `(?i)` case-insensitive literals. -/
def secretPatterns : List String :=
  ["password", "secret", "token", "key", "auth", "credential", "cert"]

/-- `isSecretVariable` from the source: the key matches one of the
case-insensitive literal patterns, i.e. its lower-casing contains the
pattern as a substring. -/
def isSecretVariable (key : String) : Bool :=
  secretPatterns.any (fun pattern => listContains pattern.data (toLowerStr key).data)

/-- `isLikelySecret` from the source: identical pattern match on the key;
the value argument is ignored by the Go code as well. -/
def isLikelySecret (key value : String) : Bool :=
  secretPatterns.any (fun pattern => listContains pattern.data (toLowerStr key).data)

/-- `hasSecrets` from the source: some environment key is secret-like. -/
def hasSecrets (dc : DockerConfig) : Bool :=
  dc.environment.any (fun kv => isSecretVariable kv.1)

/-- Is the first character one that can start the key of the env-line
regex `^([A-Za-z_][A-Za-z0-9_]*)`? -/
def identStart (c : Char) : Bool :=
  c.isAlpha || c = '_'

/-- May the character continue the key of the env-line regex? -/
def identCont (c : Char) : Bool :=
  c.isAlphanum || c = '_'

/-- Model of `variablePattern.FindStringSubmatch` for the regex
`^([A-Za-z_][A-Za-z0-9_]*)\s*=\s*(.*)`: the maximal identifier prefix,
optional regex white space, a literal `=`, optional regex white space,
and the raw value being the rest of the line. -/
def matchEnvLine (line : String) : Option (String × String) :=
  match line.data with
  | [] => none
  | c :: rest =>
    if identStart c then
      let afterIdent := (rest.dropWhile identCont).dropWhile isRegexSpace
      match afterIdent with
      | '=' :: tail =>
        some (String.mk (c :: rest.takeWhile identCont), String.mk (tail.dropWhile isRegexSpace))
      | _ => none
    else none

/-- Model of `commentPattern.MatchString` for the regex `^\s*#`. -/
def commentMatch (line : String) : Bool :=
  match line.data.dropWhile isRegexSpace with
  | '#' :: _ => true
  | _ => false

/-- One iteration of the scanner loop in `parseEnvFile`: trim the line,
skip blanks and comments, and on a regex match store the (quote-trimmed)
value and record the key as a secret when it looks like one. -/
def parseLine (ec : EnvConfig) (raw : String) : EnvConfig :=
  let line := trimSpace raw
  if line = "" || commentMatch line then ec
  else
    match matchEnvLine line with
    | none => ec
    | some (key, rawValue) =>
      let value := trimQuotes rawValue
      let ec1 : EnvConfig := { ec with vars := setEnv ec.vars key value }
      if isLikelySecret key value then { ec1 with secrets := ec1.secrets ++ [key] }
      else ec1

/-- `parseEnvFile` from the source, over a probed file: an open failure
leaves the state unchanged and reports an error; otherwise every scanned
line is processed (mutating the analyzer state) and the scanner's final
error status is reported. -/
def parseEnvFile (p : Probe) (ec : EnvConfig) : EnvConfig × Bool :=
  match p with
  | .absent => (ec, true)
  | .openFail => (ec, true)
  | .present lines scanErr => (lines.foldl parseLine ec, scanErr)

/-- The fixed candidate environment-file names probed by
`detectEnvironmentVariables`, in source order. -/
def envFileNames : List String :=
  [".env", ".env.example", ".env.template", ".env.default"]

/-- Does the probe outcome mean `os.Stat` succeeded? -/
def probeExists : Probe → Bool
  | .absent => false
  | _ => true

/-- The probing loop of `detectEnvironmentVariables`: try each candidate
name in order; the first one whose stat succeeds is parsed and the loop
breaks (whether or not parsing succeeds). -/
def probeLoop (fs : FS) (ec : EnvConfig) : List String → EnvConfig × Bool
  | [] => (ec, false)
  | nm :: rest =>
    match fs.probe nm with
    | .absent => probeLoop fs ec rest
    | p => parseEnvFile p ec

/-- `detectNodeEnvironmentVars` default table. -/
def nodeCommonVars : EnvMap :=
  [("NODE_ENV", "production"), ("PORT", "3000")]

/-- `detectPythonEnvironmentVars` default table. -/
def pythonCommonVars : EnvMap :=
  [("PYTHONPATH", "/app"), ("FLASK_ENV", "production"),
   ("DJANGO_SETTINGS_MODULE", "project.settings.production")]

/-- `detectRubyEnvironmentVars` default table. -/
def rubyCommonVars : EnvMap :=
  [("RAILS_ENV", "production"), ("RACK_ENV", "production")]

/-- `detectPHPEnvironmentVars` default table. -/
def phpCommonVars : EnvMap :=
  [("APP_ENV", "production"), ("APP_DEBUG", "false")]

/-- The shared loop of the `detect*EnvironmentVars` functions: each
default is inserted only when its key is absent. -/
def applyDefaults : EnvMap → EnvMap → EnvMap
  | [], vars => vars
  | kv :: rest, vars =>
    applyDefaults rest (if hasKey vars kv.1 then vars else vars ++ [kv])

/-- `detectNodeEnvironmentVars` from the source. -/
def detectNodeEnvironmentVars (vars : EnvMap) : EnvMap :=
  applyDefaults nodeCommonVars vars

/-- `detectPythonEnvironmentVars` from the source. -/
def detectPythonEnvironmentVars (vars : EnvMap) : EnvMap :=
  applyDefaults pythonCommonVars vars

/-- `detectRubyEnvironmentVars` from the source. -/
def detectRubyEnvironmentVars (vars : EnvMap) : EnvMap :=
  applyDefaults rubyCommonVars vars

/-- `detectPHPEnvironmentVars` from the source. -/
def detectPHPEnvironmentVars (vars : EnvMap) : EnvMap :=
  applyDefaults phpCommonVars vars

/-- `detectFrameworkEnvironmentVars` from the source: note the switch
checks `composer.json` before `Gemfile`. -/
def detectFrameworkEnvironmentVars (files : List String) (vars : EnvMap) : EnvMap :=
  if hasFile files "package.json" then detectNodeEnvironmentVars vars
  else if hasFile files "requirements.txt" then detectPythonEnvironmentVars vars
  else if hasFile files "composer.json" then detectPHPEnvironmentVars vars
  else if hasFile files "Gemfile" then detectRubyEnvironmentVars vars
  else vars

/-- `detectEnvironmentVariables` from the source: probe the candidate
env-file names in order; a parse error is returned immediately (skipping
framework defaults), otherwise the framework defaults are merged in.
The boolean is the error status. -/
def detectEnvironmentVariables (fs : FS) (ec : EnvConfig) : EnvConfig × Bool :=
  let probed := probeLoop fs ec envFileNames
  if probed.2 then (probed.1, true)
  else ({ probed.1 with vars := detectFrameworkEnvironmentVars fs.files probed.1.vars }, false)

/-- `configureNodeJS` from the source. -/
def configureNodeJS (dc : DockerConfig) : DockerConfig :=
  { dc with
    baseImage := "node:18-alpine"
    commands := ["WORKDIR /app", "COPY package*.json ./", "RUN npm install",
      "COPY . .", "EXPOSE 3000", "CMD [\"npm\", \"start\"]"]
    ports := ["3000:3000"] }

/-- `configurePython` from the source. -/
def configurePython (dc : DockerConfig) : DockerConfig :=
  { dc with
    baseImage := "python:3.9-slim"
    commands := ["WORKDIR /app", "COPY requirements.txt .",
      "RUN pip install --no-cache-dir -r requirements.txt", "COPY . .",
      "EXPOSE 8000", "CMD [\"python\", \"app.py\"]"]
    ports := ["8000:8000"] }

/-- `configureGo` from the source. -/
def configureGo (dc : DockerConfig) : DockerConfig :=
  { dc with
    baseImage := "golang:1.20-alpine"
    commands := ["WORKDIR /app", "COPY go.* .", "RUN go mod download",
      "COPY . .", "RUN go build -o main .", "EXPOSE 8080", "CMD [\"./main\"]"]
    ports := ["8080:8080"] }

/-- `configureMavenJava` from the source. -/
def configureMavenJava (dc : DockerConfig) : DockerConfig :=
  { dc with
    baseImage := "eclipse-temurin:17-jdk-alpine"
    commands := ["WORKDIR /app", "COPY pom.xml .", "COPY .mvn .mvn",
      "COPY mvnw .", "RUN chmod +x mvnw", "RUN ./mvnw dependency:go-offline",
      "COPY src src", "RUN ./mvnw package -DskipTests", "EXPOSE 8080",
      "CMD [\"java\", \"-jar\", \"target/*.jar\"]"]
    ports := ["8080:8080"] }

/-- `configureGradleJava` from the source. -/
def configureGradleJava (dc : DockerConfig) : DockerConfig :=
  { dc with
    baseImage := "eclipse-temurin:17-jdk-alpine"
    commands := ["WORKDIR /app", "COPY build.gradle settings.gradle ./",
      "COPY gradle gradle", "COPY gradlew .", "RUN chmod +x gradlew",
      "RUN ./gradlew dependencies", "COPY src src", "RUN ./gradlew build -x test",
      "EXPOSE 8080", "CMD [\"java\", \"-jar\", \"build/libs/*.jar\"]"]
    ports := ["8080:8080"] }

/-- `configureJava` from the source: `pom.xml` selects the Maven variant. -/
def configureJava (files : List String) (dc : DockerConfig) : DockerConfig :=
  if hasFile files "pom.xml" then configureMavenJava dc else configureGradleJava dc

/-- `configureRuby` from the source. Note the assignment
`dc.environment = map[string]string{...}` replaces the whole environment
mapping rather than inserting one key. -/
def configureRuby (dc : DockerConfig) : DockerConfig :=
  { dc with
    baseImage := "ruby:3.2-alpine"
    commands := ["WORKDIR /app", "COPY Gemfile Gemfile.lock ./",
      "RUN apk add --no-cache build-base postgresql-dev", "RUN bundle install",
      "COPY . .", "EXPOSE 3000",
      "CMD [\"bundle\", \"exec\", \"rails\", \"server\", \"-b\", \"0.0.0.0\"]"]
    ports := ["3000:3000"]
    environment := [("RAILS_ENV", "production")] }

/-- `configurePHP` from the source. -/
def configurePHP (dc : DockerConfig) : DockerConfig :=
  { dc with
    baseImage := "php:8.2-apache"
    commands := ["WORKDIR /var/www/html",
      "RUN apt-get update && apt-get install -y \\\n    libzip-dev \\\n    zip \\\n    && docker-php-ext-install zip pdo pdo_mysql",
      "COPY --from=composer:latest /usr/bin/composer /usr/bin/composer",
      "COPY composer.* ./", "RUN composer install --no-dev --no-scripts --no-autoloader",
      "COPY . .", "RUN composer dump-autoload --optimize",
      "RUN chown -R www-data:www-data /var/www/html", "EXPOSE 80"]
    ports := ["80:80"] }

/-- `configureGeneric` from the source. -/
def configureGeneric (dc : DockerConfig) : DockerConfig :=
  { dc with
    baseImage := "ubuntu:latest"
    commands := ["WORKDIR /app", "COPY . .", "CMD [\"/bin/bash\"]"] }

/-- The configuration `GenerateDockerConfig` builds before its profile
switch: fresh config holding the detected environment variables (a
detection error is only printed as a warning and otherwise ignored). -/
def baseConfig (fs : FS) (isCompose : Bool) : DockerConfig :=
  let detected := detectEnvironmentVariables fs NewEnvConfig
  { baseImage := ""
    ports := []
    commands := []
    environment := detected.1.vars
    isCompose := isCompose
    services := [] }

/-- `GenerateDockerConfig` from the source: detect environment variables
(non-fatally), copy them into the config, then run the profile switch. -/
def GenerateDockerConfig (fs : FS) (isCompose : Bool) : DockerConfig :=
  let config := baseConfig fs isCompose
  if hasFile fs.files "package.json" then configureNodeJS config
  else if hasFile fs.files "requirements.txt" || hasFile fs.files "Pipfile" then configurePython config
  else if hasFile fs.files "go.mod" then configureGo config
  else if hasFile fs.files "pom.xml" || hasFile fs.files "build.gradle" then configureJava fs.files config
  else if hasFile fs.files "Gemfile" then configureRuby config
  else if hasFile fs.files "composer.json" || hasAnyFile fs.files [".php"] then configurePHP config
  else configureGeneric config

/-- The closed set of ecosystem profiles, with the Java variant split as
in `configureJava`. -/
inductive EcosystemProfile where
  | NodeJS
  | Python
  | Go
  | JavaMaven
  | JavaGradle
  | Ruby
  | PHP
  | Generic
deriving DecidableEq

/-- The profile the switch in `GenerateDockerConfig` dispatches to,
extracted as a function of the file set. -/
def selectProfile (files : List String) : EcosystemProfile :=
  if hasFile files "package.json" then .NodeJS
  else if hasFile files "requirements.txt" || hasFile files "Pipfile" then .Python
  else if hasFile files "go.mod" then .Go
  else if hasFile files "pom.xml" || hasFile files "build.gradle" then
    (if hasFile files "pom.xml" then .JavaMaven else .JavaGradle)
  else if hasFile files "Gemfile" then .Ruby
  else if hasFile files "composer.json" || hasAnyFile files [".php"] then .PHP
  else .Generic

/-- The per-profile configuration function the switch applies. -/
def applyProfile : EcosystemProfile → DockerConfig → DockerConfig
  | .NodeJS => configureNodeJS
  | .Python => configurePython
  | .Go => configureGo
  | .JavaMaven => configureMavenJava
  | .JavaGradle => configureGradleJava
  | .Ruby => configureRuby
  | .PHP => configurePHP
  | .Generic => configureGeneric

/-- The partition loop of `generateComposeContent`: one pass over the
environment collecting the plain `key=value` lines and the secret keys. -/
def composePartition (env : EnvMap) : List String × List String :=
  env.foldl
    (fun acc kv =>
      if isSecretVariable kv.1 then (acc.1, acc.2 ++ [kv.1])
      else (acc.1 ++ [kv.1 ++ "=" ++ kv.2], acc.2))
    ([], [])

/-- `generateComposeContent` from the source. -/
def generateComposeContent (dc : DockerConfig) : String :=
  let header := "version: '3.8'\n\n"
  let topSecrets :=
    if dc.services.length > 0 && hasSecrets dc then
      "secrets:\n" ++
        concatAll (dc.environment.map (fun kv =>
          if isSecretVariable kv.1 then "  " ++ toLowerStr kv.1 ++ ":\n    file: .env\n"
          else "")) ++ "\n"
    else ""
  let serviceHeader :=
    "services:\n  app:\n    image: " ++ dc.baseImage ++ "\n    build:\n      context: .\n"
  let portsSection :=
    if dc.ports.length > 0 then
      "    ports:\n" ++ concatAll (dc.ports.map (fun port => "      - " ++ port ++ "\n"))
    else ""
  let envSection :=
    if dc.environment.length > 0 then
      let parted := composePartition dc.environment
      (if parted.1.length > 0 then
        "    environment:\n" ++ concatAll (parted.1.map (fun env => "      - " ++ env ++ "\n"))
       else "") ++
      (if parted.2.length > 0 then
        "    secrets:\n" ++ concatAll (parted.2.map (fun sec => "      - " ++ toLowerStr sec ++ "\n"))
       else "")
    else ""
  header ++ topSecrets ++ serviceHeader ++ portsSection ++ envSection

/-! ### Substring characterization -/

/-- `List.isPrefixOf` succeeds exactly when the second list extends the
first. -/
theorem isPrefixOf_iff (p : List Char) : ∀ l : List Char,
    p.isPrefixOf l = true ↔ ∃ r, l = p ++ r := by
  induction p with
  | nil => intro l; simp [List.isPrefixOf]
  | cons c p ih =>
    intro l
    cases l with
    | nil => simp [List.isPrefixOf]
    | cons d l =>
      simp only [List.isPrefixOf, Bool.and_eq_true, beq_iff_eq, ih, List.cons_append,
        List.cons.injEq]
      constructor
      · rintro ⟨rfl, r, rfl⟩
        exact ⟨r, rfl, rfl⟩
      · rintro ⟨r, rfl, rfl⟩
        exact ⟨rfl, r, rfl⟩

/-- `listContains` succeeds exactly on contiguous occurrences. -/
theorem listContains_iff (pat : List Char) : ∀ l : List Char,
    listContains pat l = true ↔ ∃ x y, l = x ++ pat ++ y := by
  intro l
  induction l with
  | nil =>
    cases pat with
    | nil => simp [listContains]
    | cons c p => simp [listContains, List.isEmpty, eq_comm]
  | cons c t ih =>
    simp only [listContains, Bool.or_eq_true, isPrefixOf_iff, ih]
    constructor
    · rintro (⟨r, hr⟩ | ⟨x, y, rfl⟩)
      · exact ⟨[], r, by simpa using hr⟩
      · exact ⟨c :: x, y, by simp⟩
    · rintro ⟨x, y, hxy⟩
      cases x with
      | nil => exact Or.inl ⟨y, by simpa using hxy⟩
      | cons d x =>
        rw [List.cons_append, List.cons_append] at hxy
        injection hxy with h1 h2
        exact Or.inr ⟨x, y, by simpa using h2⟩

/-- String-level version of the substring characterization. -/
theorem substrB_iff (pat s : String) :
    substrB pat s = true ↔ ∃ x y, s.data = x ++ pat.data ++ y :=
  listContains_iff pat.data s.data

theorem substrB_append_right (pat s t : String) (h : substrB pat t = true) :
    substrB pat (s ++ t) = true := by
  rcases (substrB_iff pat t).1 h with ⟨x, y, hxy⟩
  exact (substrB_iff pat (s ++ t)).2 ⟨s.data ++ x, y, by simp [String.data_append, hxy]⟩

theorem substrB_append_left (pat s t : String) (h : substrB pat s = true) :
    substrB pat (s ++ t) = true := by
  rcases (substrB_iff pat s).1 h with ⟨x, y, hxy⟩
  exact (substrB_iff pat (s ++ t)).2 ⟨x, y ++ t.data, by simp [String.data_append, hxy]⟩

/-- Any element of a string list occurs as a substring of `concatAll`. -/
theorem substrB_concatAll (s : String) : ∀ l : List String, s ∈ l →
    substrB s (concatAll l) = true := by
  intro l
  induction l with
  | nil => intro h; cases h
  | cons x rest ih =>
    intro hmem
    rcases List.mem_cons.1 hmem with rfl | hmem
    · exact (substrB_iff s (concatAll (s :: rest))).2
        ⟨[], (concatAll rest).data, by simp [concatAll, String.data_append]⟩
    · exact substrB_append_right s x (concatAll rest) (ih hmem)

/-! ### Default-table lemmas -/

theorem hasKey_append_one (v : EnvMap) (kv : String × String) (k : String)
    (h : hasKey v k = true) : hasKey (v ++ [kv]) k = true := by
  simp only [hasKey, List.any_append] at h ⊢
  simp [h]

theorem hasKey_applyDefaults (d : EnvMap) : ∀ (v : EnvMap) (k : String),
    hasKey v k = true → hasKey (applyDefaults d v) k = true := by
  induction d with
  | nil => intro v k h; simpa [applyDefaults] using h
  | cons kv rest ih =>
    intro v k h
    simp only [applyDefaults]
    apply ih
    by_cases hk : hasKey v kv.1 = true
    · rw [if_pos hk]; exact h
    · rw [if_neg hk]; exact hasKey_append_one v kv k h

theorem hasKey_applyDefaults_self (d : EnvMap) : ∀ (v : EnvMap), ∀ kv ∈ d,
    hasKey (applyDefaults d v) kv.1 = true := by
  induction d with
  | nil => intro v kv h; cases h
  | cons kv0 rest ih =>
    intro v kv hmem
    simp only [applyDefaults]
    rcases List.mem_cons.1 hmem with rfl | hmem
    · apply hasKey_applyDefaults
      by_cases hk : hasKey v kv.1 = true
      · rw [if_pos hk]; exact hk
      · rw [if_neg hk]; simp [hasKey, List.any_append]
    · exact ih _ kv hmem

theorem applyDefaults_of_present (d : EnvMap) : ∀ (v : EnvMap),
    (∀ kv ∈ d, hasKey v kv.1 = true) → applyDefaults d v = v := by
  induction d with
  | nil => intro v _; rfl
  | cons kv rest ih =>
    intro v h
    simp only [applyDefaults]
    rw [if_pos (h kv (List.mem_cons_self kv rest))]
    exact ih v (fun kv2 h2 => h kv2 (List.mem_cons_of_mem kv h2))

theorem applyDefaults_idem (d v : EnvMap) :
    applyDefaults d (applyDefaults d v) = applyDefaults d v :=
  applyDefaults_of_present d _ (fun kv h => hasKey_applyDefaults_self d v kv h)

/-! ### Probe-loop characterization -/

theorem probeLoop_eq_find (fs : FS) (ec : EnvConfig) : ∀ names : List String,
    probeLoop fs ec names =
      match names.find? (fun nm => probeExists (fs.probe nm)) with
      | none => (ec, false)
      | some nm => parseEnvFile (fs.probe nm) ec := by
  intro names
  induction names with
  | nil => rfl
  | cons nm rest ih =>
    cases h : fs.probe nm with
    | absent => simpa [probeLoop, h, List.find?, probeExists] using ih
    | openFail => simp [probeLoop, h, List.find?, probeExists]
    | present lines scanErr => simp [probeLoop, h, List.find?, probeExists]

/-! ### Profile-dispatch bridge -/

theorem generate_eq_dispatch (fs : FS) (b : Bool) :
    GenerateDockerConfig fs b = applyProfile (selectProfile fs.files) (baseConfig fs b) := by
  unfold GenerateDockerConfig selectProfile configureJava
  cases h1 : hasFile fs.files "package.json" with
  | true => simp [h1, applyProfile]
  | false =>
    cases h2 : (hasFile fs.files "requirements.txt" || hasFile fs.files "Pipfile") with
    | true => simp [h1, h2, applyProfile]
    | false =>
      cases h3 : hasFile fs.files "go.mod" with
      | true => simp [h1, h2, h3, applyProfile]
      | false =>
        cases h4 : (hasFile fs.files "pom.xml" || hasFile fs.files "build.gradle") with
        | true =>
          cases h4a : hasFile fs.files "pom.xml" with
          | true => simp [h1, h2, h3, h4, h4a, applyProfile]
          | false => simp [h1, h2, h3, h4, h4a, applyProfile]
        | false =>
          cases h5 : hasFile fs.files "Gemfile" with
          | true => simp [h1, h2, h3, h4, h5, applyProfile]
          | false =>
            cases h6 : (hasFile fs.files "composer.json" || hasAnyFile fs.files [".php"]) with
            | true => simp [h1, h2, h3, h4, h5, h6, applyProfile]
            | false => simp [h1, h2, h3, h4, h5, h6, applyProfile]

theorem generate_services_nil (fs : FS) (b : Bool) :
    (GenerateDockerConfig fs b).services = [] := by
  rw [generate_eq_dispatch fs b]
  cases selectProfile fs.files <;>
    simp [applyProfile, configureNodeJS, configurePython, configureGo, configureMavenJava,
      configureGradleJava, configureRuby, configurePHP, configureGeneric, baseConfig]

/-! ### Claim C6 -/

/-- Claim C6: the Environment Collector is idempotent — running
`detectFrameworkEnvironmentVars` (the collector's default-merging step) on
its own output changes nothing, because each ecosystem default is inserted
only when its key is absent and present entries are never overwritten. -/
theorem claim_C6_collect_idempotent (files : List String) (vars : EnvMap) :
    detectFrameworkEnvironmentVars files (detectFrameworkEnvironmentVars files vars) =
      detectFrameworkEnvironmentVars files vars := by
  unfold detectFrameworkEnvironmentVars detectNodeEnvironmentVars detectPythonEnvironmentVars
    detectRubyEnvironmentVars detectPHPEnvironmentVars
  by_cases h1 : hasFile files "package.json" = true
  · simp [h1, applyDefaults_idem]
  · by_cases h2 : hasFile files "requirements.txt" = true
    · simp [h1, h2, applyDefaults_idem]
    · by_cases h3 : hasFile files "composer.json" = true
      · simp [h1, h2, h3, applyDefaults_idem]
      · by_cases h4 : hasFile files "Gemfile" = true
        · simp [h1, h2, h3, h4, applyDefaults_idem]
        · simp [h1, h2, h3, h4]

/-! ### Claim C7 -/

/-- Claim C7: secret-like classification is a pure, case-insensitive,
substring-based function of the key string over the fixed pattern set
{password, secret, token, key, auth, credential, cert}; `DB_PASSWORD`,
`apiKey` and `AUTH_TOKEN` classify as secret-like while `PORT` and
`NODE_ENV` do not. -/
theorem claim_C7_secret_classification :
    (∀ k1 k2 : String, toLowerStr k1 = toLowerStr k2 →
      isSecretVariable k1 = isSecretVariable k2) ∧
    (∀ key : String, isSecretVariable key = true ↔
      ∃ p ∈ secretPatterns, ∃ x y, (toLowerStr key).data = x ++ p.data ++ y) ∧
    isSecretVariable "DB_PASSWORD" = true ∧ isSecretVariable "apiKey" = true ∧
    isSecretVariable "AUTH_TOKEN" = true ∧ isSecretVariable "PORT" = false ∧
    isSecretVariable "NODE_ENV" = false := by
  refine ⟨?_, ?_, by decide, by decide, by decide, by decide, by decide⟩
  · intro k1 k2 h
    simp [isSecretVariable, h]
  · intro key
    simp [isSecretVariable, List.any_eq_true, listContains_iff]

/-- Witness for C7: two spellings of the same key, differing only in case,
classify identically. -/
theorem claim_C7_witness : isSecretVariable "DB_PASSWORD" = isSecretVariable "db_Password" :=
  claim_C7_secret_classification.1 "DB_PASSWORD" "db_Password" (by decide)

/-! ### Claim C8 -/

/-- Claim C8: `hasFile` (the spec's `hasMarkerFile`) returns true exactly
when some entry of the file set has a base name case-insensitively equal
to the queried name; it is a pure total function and absence simply yields
false. -/
theorem claim_C8_hasFile_spec :
    (∀ (files : List String) (nm : String),
      hasFile files nm = true ↔ ∃ f ∈ files, toLowerStr (baseName f) = toLowerStr nm) ∧
    hasFile ["SRC/Package.JSON"] "package.json" = true ∧
    hasFile [] "package.json" = false := by
  refine ⟨?_, by decide, by decide⟩
  intro files nm
  simp [hasFile, List.any_eq_true, eqFold]

/-- Witness for C8: a case-mangled nested path still matches its marker
name. -/
theorem claim_C8_witness : hasFile ["app/B.TXT"] "b.txt" = true :=
  (claim_C8_hasFile_spec.1 ["app/B.TXT"] "b.txt").2 ⟨"app/B.TXT", by decide, by decide⟩

/-! ### Claim C9 -/

/-- Fixture for C9: no `.env`, but both `.env.example` and `.env.template`
exist with distinct keys. -/
def fsC9 : FS :=
  ⟨[], fun nm =>
    if nm = ".env.example" then Probe.present ["FIRST_VAR=1"] false
    else if nm = ".env.template" then Probe.present ["SECOND_VAR=2"] false
    else Probe.absent⟩

/-- Claim C9: environment-file discovery probes exactly `.env`,
`.env.example`, `.env.template`, `.env.default` in that order and parses
only the first existing one: the probing loop is the first-hit lookup over
that fixed name list, and concretely a key from a later-listed file never
reaches the variable mapping. -/
theorem claim_C9_probe_order :
    (∀ (fs : FS) (ec : EnvConfig),
      probeLoop fs ec envFileNames =
        match envFileNames.find? (fun nm => probeExists (fs.probe nm)) with
        | none => (ec, false)
        | some nm => parseEnvFile (fs.probe nm) ec) ∧
    lookupEnv (detectEnvironmentVariables fsC9 NewEnvConfig).1.vars "FIRST_VAR" = some "1" ∧
    lookupEnv (detectEnvironmentVariables fsC9 NewEnvConfig).1.vars "SECOND_VAR" = none :=
  ⟨fun fs ec => probeLoop_eq_find fs ec envFileNames, rfl, rfl⟩

/-! ### Claim C5 -/

/-- Claim C5: `GenerateDockerConfig` selects exactly one profile by first
match in the fixed order (Node, Python via requirements.txt or Pipfile,
Go, Java via pom.xml or build.gradle, Ruby, PHP via composer.json or any
.php file, else Generic) — its result is exactly the dispatch of
`applyProfile` over `selectProfile` — and when `pom.xml` is present (and
no earlier marker matched) the Java/Maven variant wins even with
`build.gradle` present. -/
theorem claim_C5_profile_selection (fs : FS) (b : Bool) :
    GenerateDockerConfig fs b = applyProfile (selectProfile fs.files) (baseConfig fs b) ∧
    (hasFile fs.files "package.json" = false →
     hasFile fs.files "requirements.txt" = false →
     hasFile fs.files "Pipfile" = false →
     hasFile fs.files "go.mod" = false →
     hasFile fs.files "pom.xml" = true →
     selectProfile fs.files = EcosystemProfile.JavaMaven) := by
  refine ⟨generate_eq_dispatch fs b, ?_⟩
  intro h1 h2 h3 h4 h5
  simp [selectProfile, h1, h2, h3, h4, h5]

/-- Fixture for C5: both Java marker files, nothing else. -/
def fsC5 : FS := ⟨["pom.xml", "build.gradle"], fun _ => Probe.absent⟩

/-- Witness for C5: with both `pom.xml` and `build.gradle` present the
Maven variant is selected, and the dispatch equation holds there. -/
theorem claim_C5_witness :
    selectProfile fsC5.files = EcosystemProfile.JavaMaven ∧
    GenerateDockerConfig fsC5 false = applyProfile (selectProfile fsC5.files) (baseConfig fsC5 false) :=
  ⟨(claim_C5_profile_selection fsC5 false).2 (by decide) (by decide) (by decide) (by decide)
      (by decide),
   (claim_C5_profile_selection fsC5 false).1⟩

/-! ### Claim C1 (counterexample part) -/

/-- Fixture for Scenario D: FileSet {Gemfile}, `.env` containing
`DB_PASSWORD=hunter2`. -/
def fsC1 : FS :=
  ⟨["Gemfile"], fun nm =>
    if nm = ".env" then Probe.present ["DB_PASSWORD=hunter2"] false else Probe.absent⟩

/-- Claim C1 is false as stated: in Scenario D the key `DB_PASSWORD` is in
the environment mapping fed to synthesis, but `configureRuby` replaces the
whole environment with {RAILS_ENV: production}, so the rendered
orchestration output omits the key entirely (it appears zero times, in
particular `db_password` is not in the secrets list). -/
theorem claim_C1_counterexample :
    lookupEnv (detectEnvironmentVariables fsC1 NewEnvConfig).1.vars "DB_PASSWORD" = some "hunter2" ∧
    (GenerateDockerConfig fsC1 true).environment = [("RAILS_ENV", "production")] ∧
    substrB "db_password" (generateComposeContent (GenerateDockerConfig fsC1 true)) = false ∧
    substrB "DB_PASSWORD" (generateComposeContent (GenerateDockerConfig fsC1 true)) = false :=
  ⟨rfl, rfl, rfl, rfl⟩

/-! ### Claim C2 -/

/-- Fixture for C2: FileSet {go.mod}, `.env` containing a secret-like key. -/
def fsC2 : FS :=
  ⟨["go.mod"], fun nm =>
    if nm = ".env" then Probe.present ["DB_PASSWORD=hunter2"] false else Probe.absent⟩

/-- Claim C2: the synthesized configuration has a secret-like environment
key, yet the rendered orchestration text contains no top-level secret
store block (no line `secrets:` at column zero) while it does emit a
service-level reference to `db_password` — the top-level block is dead
code because its guard also requires a non-empty services map, and
synthesis never populates services (last conjunct). -/
theorem claim_C2_top_level_secrets_missing :
    hasSecrets (GenerateDockerConfig fsC2 true) = true ∧
    (GenerateDockerConfig fsC2 true).services = [] ∧
    substrB "\nsecrets:\n" (generateComposeContent (GenerateDockerConfig fsC2 true)) = false ∧
    substrB "    secrets:\n      - db_password\n"
      (generateComposeContent (GenerateDockerConfig fsC2 true)) = true ∧
    (∀ (fs : FS) (b : Bool), (GenerateDockerConfig fs b).services = []) :=
  ⟨rfl, rfl, rfl, rfl, generate_services_nil⟩

/-! ### Claim C3 (counterexample part) -/

/-- Fixture for C3: `.env` stats successfully but opening it fails (a read
failure other than non-existence). -/
def fsC3 : FS := ⟨["go.mod"], fun _ => Probe.openFail⟩

/-- Claim C3 is false for the analyzer pipeline: a read failure on the
environment file is reported by `detectEnvironmentVariables`, but
`GenerateDockerConfig` demotes it to a printed warning and proceeds — a
full BuildConfiguration is still produced. -/
theorem claim_C3_counterexample :
    (detectEnvironmentVariables fsC3 NewEnvConfig).2 = true ∧
    (GenerateDockerConfig fsC3 false).baseImage = "golang:1.20-alpine" ∧
    (GenerateDockerConfig fsC3 false).commands ≠ [] :=
  ⟨rfl, rfl, by decide⟩

/-! ### Claim C4 -/

/-- The Environment Collector's ecosystem choice as the spec words it
(§4.2 step 2): the synthesizer's priority order restricted to
Node → Python → Ruby → PHP. Stated from the spec for comparison with the
source's `detectFrameworkEnvironmentVars`. -/
def detectFrameworkEnvironmentVarsSpec (files : List String) (vars : EnvMap) : EnvMap :=
  if hasFile files "package.json" then detectNodeEnvironmentVars vars
  else if hasFile files "requirements.txt" then detectPythonEnvironmentVars vars
  else if hasFile files "Gemfile" then detectRubyEnvironmentVars vars
  else if hasFile files "composer.json" then detectPHPEnvironmentVars vars
  else vars

/-- Claim C4 is false as stated: on a FileSet containing both `Gemfile`
and `composer.json` the collector applies the PHP default table, not the
Ruby one (the source checks `composer.json` before `Gemfile`), while the
synthesizer selects the Ruby profile. -/
theorem claim_C4_counterexample :
    detectFrameworkEnvironmentVars ["Gemfile", "composer.json"] [] =
      [("APP_ENV", "production"), ("APP_DEBUG", "false")] ∧
    lookupEnv (detectFrameworkEnvironmentVars ["Gemfile", "composer.json"] []) "RAILS_ENV" = none ∧
    detectFrameworkEnvironmentVarsSpec ["Gemfile", "composer.json"] [] =
      [("RAILS_ENV", "production"), ("RACK_ENV", "production")] ∧
    selectProfile ["Gemfile", "composer.json"] = EcosystemProfile.Ruby :=
  ⟨rfl, rfl, rfl, rfl⟩

/-- Claim C4 amended: the collector agrees with the spec's restricted
priority order whenever the FileSet does not contain both `composer.json`
and `Gemfile` (the two orders differ only in swapping those two checks),
and when none of the four collector markers is present — in particular for
Go and Java projects — no defaults are contributed at all. -/
theorem claim_C4_collector_order (files : List String) (vars : EnvMap) :
    ((hasFile files "composer.json" = false ∨ hasFile files "Gemfile" = false) →
      detectFrameworkEnvironmentVars files vars = detectFrameworkEnvironmentVarsSpec files vars) ∧
    (hasFile files "package.json" = false → hasFile files "requirements.txt" = false →
     hasFile files "composer.json" = false → hasFile files "Gemfile" = false →
     detectFrameworkEnvironmentVars files vars = vars) := by
  constructor
  · rintro (h | h) <;>
      simp [detectFrameworkEnvironmentVars, detectFrameworkEnvironmentVarsSpec, h]
  · intro h1 h2 h3 h4
    simp [detectFrameworkEnvironmentVars, h1, h2, h3, h4]

/-- Witness for C4 amended: a Go/Java FileSet receives no defaults, and on
a composer-only FileSet the source and spec orders agree. -/
theorem claim_C4_witness :
    detectFrameworkEnvironmentVars ["go.mod", "pom.xml"] [("A", "b")] = [("A", "b")] ∧
    detectFrameworkEnvironmentVars ["composer.json"] [] =
      detectFrameworkEnvironmentVarsSpec ["composer.json"] [] :=
  ⟨(claim_C4_collector_order ["go.mod", "pom.xml"] [("A", "b")]).2 (by decide) (by decide)
      (by decide) (by decide),
   (claim_C4_collector_order ["composer.json"] []).1 (Or.inr (by decide))⟩

/-! ### Claim C10 -/

/-- Fixture for C10's counterexample: Pipfile together with composer.json,
no environment file. -/
def fsC10 : FS := ⟨["Pipfile", "composer.json"], fun _ => Probe.absent⟩

/-- Claim C10 is false as universally stated: on the FileSet
{Pipfile, composer.json} with no environment-definition file the Python
profile is selected, but the environment mapping is not empty — the
collector contributes the PHP defaults, because its switch consults
`composer.json` independently of the profile switch. -/
theorem claim_C10_counterexample :
    (GenerateDockerConfig fsC10 false).baseImage = "python:3.9-slim" ∧
    (GenerateDockerConfig fsC10 false).environment =
      [("APP_ENV", "production"), ("APP_DEBUG", "false")] :=
  ⟨rfl, rfl⟩

/-! ### The pkg/generate pipeline -/

/-- Model of Go's `strings.HasPrefix`. -/
def strHasPrefixB (p s : String) : Bool :=
  p.data.isPrefixOf s.data

namespace Generate

/-- One scanner iteration of `readEnvFile` from pkg/generate: lines with a
`#` prefix or only white space are skipped; `strings.SplitN(line, "=", 2)`
yields two parts exactly when the line contains `=`, in which case the map
is assigned; lines without `=` are silently skipped. -/
def readEnvLine (envVars : EnvMap) (line : String) : EnvMap :=
  if strHasPrefixB "#" line || trimSpace line == "" then envVars
  else
    match line.data.dropWhile (fun c => c != '=') with
    | [] => envVars
    | _ :: tail =>
      setEnv envVars (String.mk (line.data.takeWhile (fun c => c != '='))) (String.mk tail)

/-- `readEnvFile` from pkg/generate: a non-existing file yields an empty
map and no error; an open failure or a scanner failure is returned as an
error (aborting the caller); otherwise the scanned lines populate the map. -/
def readEnvFile (p : Probe) : Except String EnvMap :=
  match p with
  | .absent => .ok []
  | .openFail => .error "open"
  | .present lines scanErr =>
    if scanErr then .error "scan" else .ok (lines.foldl readEnvLine [])

/-- The `ENV key=value` block built by `getDockerfileContent`. -/
def envSectionDockerfile (envVars : EnvMap) : String :=
  concatAll (envVars.map (fun kv => "ENV " ++ kv.1 ++ "=" ++ kv.2 ++ "\n"))

/-- `getDockerfileContent` from pkg/generate. -/
def getDockerfileContent (projectType : String) (envVars : EnvMap) : Except String String :=
  let envSection := envSectionDockerfile envVars
  if projectType == "nodejs" then
    .ok ("FROM node:18-alpine\nWORKDIR /app\nCOPY package*.json ./\nRUN npm install\nCOPY . .\n"
      ++ envSection ++ "\nEXPOSE 3000\nCMD [\"node\", \"index.js\"]\n    ")
  else if projectType == "java" then
    .ok ("FROM openjdk:11-jre-slim\nWORKDIR /app\nCOPY . .\n" ++ envSection
      ++ "\nRUN ./mvnw clean package\nCMD [\"java\", \"-jar\", \"target/myapp.jar\"]\n    ")
  else if projectType == "python" then
    .ok ("FROM python:3.8-slim\nWORKDIR /app\nCOPY requirements.txt .\nRUN pip install -r requirements.txt\nCOPY . .\n"
      ++ envSection ++ "\nCMD [\"python\", \"app.py\"]\n    ")
  else if projectType == "ruby" then
    .ok ("FROM ruby:2.7\nWORKDIR /app\nCOPY Gemfile* .\nRUN bundle install\nCOPY . .\n"
      ++ envSection ++ "\nCMD [\"ruby\", \"app.rb\"]\n    ")
  else if projectType == "go" then
    .ok ("FROM golang:1.18-alpine\nWORKDIR /app\nCOPY go.mod ./\nCOPY go.sum ./\nRUN go mod download\nCOPY . .\n"
      ++ envSection ++ "\nRUN go build -o /dockerapp\nEXPOSE 8080\nCMD [\"/dockerapp\"]\n    ")
  else if projectType == "php" then
    .ok ("FROM php:7.4-cli\nWORKDIR /app\nCOPY composer.json composer.lock ./\nRUN curl -sS https://getcomposer.org/install | php -- --install-dir=/usr/local/bin --filename=composer\nRUN comoser install\nCOPY . .\n"
      ++ envSection ++ "\nCMD [\"php\", \"./your-script.php\"]\n")
  else .error ("unsupported project type: " ++ projectType)

/-- The `environment:` block built by `getDockerComposeContent`. -/
def envSectionCompose (envVars : EnvMap) : String :=
  if envVars.length > 0 then
    "    environment:\n" ++ concatAll (envVars.map (fun kv => "       - " ++ kv.1 ++ "=" ++ kv.2 ++ "\n"))
  else ""

/-- `getDockerComposeContent` from pkg/generate (the php template's
missing closing quote is as in the source). -/
def getDockerComposeContent (projectType : String) (envVars : EnvMap) : Except String String :=
  let envSection := envSectionCompose envVars
  if projectType == "nodejs" then
    .ok ("version: '3'\nservices:\n  app:\n    build: .\n    ports:\n      - \"3000:3000\"\n"
      ++ envSection ++ "\n    ")
  else if projectType == "java" then
    .ok ("version: '3'\nservices:\n  app:\n    build: .\n    ports:\n      - \"8080:8080\"\n"
      ++ envSection ++ "\n    ")
  else if projectType == "python" then
    .ok ("version: '3'\nservices:\n  app:\n    build: .\n    ports:\n      - \"5000:5000\"\n"
      ++ envSection ++ "\n    ")
  else if projectType == "ruby" then
    .ok ("version: '3'\nservices:\n  app:\n    build: .\n    ports:\n      - \"3000:3000\"\n"
      ++ envSection ++ "\n    ")
  else if projectType == "go" then
    .ok ("version: '3'\nservices:\n  app:\n    build: .\n    ports:\n      - \"8080:8080\"\n"
      ++ envSection ++ "\n    ")
  else if projectType == "php" then
    .ok ("version: '3'\nservices:\n  app:\n    build: .\n    ports:\n      - \"8000:8000\n"
      ++ envSection ++ "\n    ")
  else .error ("unsupported project type: " ++ projectType)

/-- `GenerateDockerFiles` from pkg/generate: any failure of the env-file
read or of content generation is propagated before anything is written;
success carries both produced contents (the writes themselves are the
abstracted trailing step). -/
def GenerateDockerFiles (p : Probe) (projectType : String) : Except String (String × String) :=
  match readEnvFile p with
  | .error e => .error e
  | .ok envVars =>
    match getDockerfileContent projectType envVars with
    | .error e => .error e
    | .ok dockerfileContent =>
      match getDockerComposeContent projectType envVars with
      | .error e => .error e
      | .ok dockerComposeContent => .ok (dockerfileContent, dockerComposeContent)

end Generate

theorem dropWhile_ne_nil_of_not_mem (l : List Char) (h : ¬ '=' ∈ l) :
    l.dropWhile (fun c => c != '=') = [] := by
  induction l with
  | nil => rfl
  | cons c t ih =>
    rw [List.mem_cons, not_or] at h
    have hc : (c != '=') = true := by
      simp [bne_iff_ne]
      exact fun hcc => h.1 hcc.symm
    simp [List.dropWhile, hc, ih h.2]

theorem applyProfile_baseImage (p : EcosystemProfile) (dc1 dc2 : DockerConfig) :
    (applyProfile p dc1).baseImage = (applyProfile p dc2).baseImage := by
  cases p <;> rfl

/-! ### Claim C3 (amended part) -/

/-- Claim C3 amended: in the pkg/generate pipeline an environment-file
read failure other than non-existence aborts `GenerateDockerFiles` before
any content is produced, and malformed (no `=`) lines of a readable file
are skipped without effect; but in the analyzer pipeline the same read
failure is demoted to a warning and synthesis proceeds — the selected
profile (hence the produced base image) is the same as if no environment
file existed at all. -/
theorem claim_C3_env_read_failure (projectType : String) (m : EnvMap) (line : String) :
    Generate.GenerateDockerFiles Probe.openFail projectType = Except.error "open" ∧
    ((¬ '=' ∈ line.data) → strHasPrefixB "#" line = false → ¬ trimSpace line = "" →
      Generate.readEnvLine m line = m) ∧
    (∀ (files : List String) (b : Bool),
      (GenerateDockerConfig ⟨files, fun _ => Probe.openFail⟩ b).baseImage =
        (GenerateDockerConfig ⟨files, fun _ => Probe.absent⟩ b).baseImage) := by
  refine ⟨rfl, ?_, ?_⟩
  · intro h1 h2 h3
    have h3b : (trimSpace line == "") = false := by
      simp [beq_eq_false_iff_ne]; exact h3
    simp [Generate.readEnvLine, h2, h3b, dropWhile_ne_nil_of_not_mem line.data h1]
  · intro files b
    rw [generate_eq_dispatch, generate_eq_dispatch]
    exact applyProfile_baseImage _ _ _

/-- Witness for C3 amended. -/
theorem claim_C3_witness :
    Generate.GenerateDockerFiles Probe.openFail "go" = Except.error "open" ∧
    Generate.readEnvLine [] "malformed line" = [] ∧
    (GenerateDockerConfig ⟨["go.mod"], fun _ => Probe.openFail⟩ false).baseImage =
      (GenerateDockerConfig ⟨["go.mod"], fun _ => Probe.absent⟩ false).baseImage :=
  ⟨(claim_C3_env_read_failure "go" [] "malformed line").1,
   (claim_C3_env_read_failure "go" [] "malformed line").2.1 (by decide) (by decide) (by decide),
   (claim_C3_env_read_failure "go" [] "malformed line").2.2 ["go.mod"] false⟩

/-! ### Claim C10 (amended part) -/

/-- Claim C10 amended: a FileSet containing `Pipfile` but none of
`package.json`, `requirements.txt`, `composer.json`, `Gemfile`, with no
environment-definition file, selects the Python profile yet gets an empty
environment mapping — the Python default table is keyed to
`requirements.txt` only. -/
theorem claim_C10_pipfile_no_defaults (fs : FS) (b : Bool)
    (hnode : hasFile fs.files "package.json" = false)
    (hreq : hasFile fs.files "requirements.txt" = false)
    (hpip : hasFile fs.files "Pipfile" = true)
    (hphp : hasFile fs.files "composer.json" = false)
    (hgem : hasFile fs.files "Gemfile" = false)
    (hprobe : ∀ nm, fs.probe nm = Probe.absent) :
    (GenerateDockerConfig fs b).baseImage = "python:3.9-slim" ∧
    (GenerateDockerConfig fs b).environment = [] := by
  have hsel : selectProfile fs.files = EcosystemProfile.Python := by
    simp [selectProfile, hnode, hreq, hpip]
  have hpl : probeLoop fs NewEnvConfig envFileNames = (NewEnvConfig, false) := by
    rw [probeLoop_eq_find]
    have hfind : envFileNames.find? (fun nm => probeExists (fs.probe nm)) = none := by
      simp [envFileNames, List.find?, hprobe, probeExists]
    rw [hfind]
  have henv : (baseConfig fs b).environment = [] := by
    simp only [baseConfig, detectEnvironmentVariables, hpl]
    simp [NewEnvConfig, detectFrameworkEnvironmentVars, hnode, hreq, hphp, hgem]
  rw [generate_eq_dispatch, hsel]
  constructor
  · rfl
  · simpa [applyProfile, configurePython] using henv

/-- Witness for C10 amended: the FileSet {Pipfile} alone. -/
theorem claim_C10_witness :
    (GenerateDockerConfig ⟨["Pipfile"], fun _ => Probe.absent⟩ false).baseImage = "python:3.9-slim" ∧
    (GenerateDockerConfig ⟨["Pipfile"], fun _ => Probe.absent⟩ false).environment = [] :=
  claim_C10_pipfile_no_defaults ⟨["Pipfile"], fun _ => Probe.absent⟩ false
    (by decide) (by decide) (by decide) (by decide) (by decide) (fun nm => rfl)

/-! ### Partition lemmas for the orchestration renderer -/

theorem composePartition_go (env : EnvMap) : ∀ a b : List String,
    env.foldl
      (fun acc kv =>
        if isSecretVariable kv.1 then (acc.1, acc.2 ++ [kv.1])
        else (acc.1 ++ [kv.1 ++ "=" ++ kv.2], acc.2)) (a, b) =
    (a ++ (env.filter (fun kv => !isSecretVariable kv.1)).map (fun kv => kv.1 ++ "=" ++ kv.2),
     b ++ (env.filter (fun kv => isSecretVariable kv.1)).map (fun kv => kv.1)) := by
  induction env with
  | nil => intro a b; simp
  | cons kv rest ih =>
    intro a b
    by_cases h : isSecretVariable kv.1 = true
    · simp [List.foldl_cons, List.filter_cons, h, ih]
    · rw [Bool.not_eq_true] at h
      simp [List.foldl_cons, List.filter_cons, h, ih]

theorem composePartition_eq (env : EnvMap) :
    composePartition env =
      ((env.filter (fun kv => !isSecretVariable kv.1)).map (fun kv => kv.1 ++ "=" ++ kv.2),
       (env.filter (fun kv => isSecretVariable kv.1)).map (fun kv => kv.1)) := by
  simpa [composePartition] using composePartition_go env [] []

theorem append_eq_char_split (a : List Char) : ∀ (c b d : List Char),
    ¬ '=' ∈ a → ¬ '=' ∈ c → a ++ '=' :: b = c ++ '=' :: d → a = c ∧ b = d := by
  induction a with
  | nil =>
    intro c b d _ hc h
    cases c with
    | nil => simpa using h
    | cons y c2 =>
      rw [List.nil_append, List.cons_append] at h
      injection h with h1 h2
      subst h1
      exact absurd (List.mem_cons_self _ _) hc
  | cons x a2 ih =>
    intro c b d ha hc h
    cases c with
    | nil =>
      rw [List.cons_append, List.nil_append] at h
      injection h with h1 h2
      subst h1
      exact absurd (List.mem_cons_self _ _) ha
    | cons y c2 =>
      rw [List.cons_append, List.cons_append] at h
      injection h with h1 h2
      have hmem_a : ¬ '=' ∈ a2 := fun hm => ha (List.mem_cons_of_mem _ hm)
      have hmem_c : ¬ '=' ∈ c2 := fun hm => hc (List.mem_cons_of_mem _ hm)
      obtain ⟨hac, hbd⟩ := ih c2 b d hmem_a hmem_c h2
      exact ⟨by rw [h1, hac], hbd⟩

theorem keyval_inj (k v k2 v2 : String) (hk : ¬ '=' ∈ k.data) (hk2 : ¬ '=' ∈ k2.data)
    (h : k ++ "=" ++ v = k2 ++ "=" ++ v2) : k = k2 ∧ v = v2 := by
  have hd : k.data ++ '=' :: v.data = k2.data ++ '=' :: v2.data := by
    have h2 := congrArg String.data h
    simpa [String.data_append, List.append_assoc] using h2
  obtain ⟨h1, h2⟩ := append_eq_char_split k.data k2.data v.data v2.data hk hk2 hd
  exact ⟨String.ext h1, String.ext h2⟩

theorem count_map_fst_filter_zero (env : EnvMap) (k : String)
    (p : String × String → Bool) (h : ¬ k ∈ env.map Prod.fst) :
    ((env.filter p).map (fun kv => kv.1)).count k = 0 := by
  rw [List.count_eq_zero]
  intro hmem
  rcases List.mem_map.1 hmem with ⟨kv, hkv, rfl⟩
  exact h (List.mem_map.2 ⟨kv, (List.mem_filter.1 hkv).1, rfl⟩)

theorem count_secrets_one (env : EnvMap) : ∀ k v : String, (k, v) ∈ env →
    (env.map Prod.fst).Nodup → isSecretVariable k = true →
    ((env.filter (fun kv => isSecretVariable kv.1)).map (fun kv => kv.1)).count k = 1 := by
  induction env with
  | nil => intro k v h; cases h
  | cons kv0 rest ih =>
    intro k v hmem hnd hsec
    rw [List.map_cons, List.nodup_cons] at hnd
    obtain ⟨hnotin, hndrest⟩ := hnd
    rcases List.mem_cons.1 hmem with heq | hmem2
    · subst heq
      have h0 : ((rest.filter (fun kv => isSecretVariable kv.1)).map (fun kv => kv.1)).count k = 0 :=
        count_map_fst_filter_zero rest k _ hnotin
      simp [List.filter_cons, hsec, List.count_cons, h0]
    · have hk_in : k ∈ rest.map Prod.fst := List.mem_map.2 ⟨(k, v), hmem2, rfl⟩
      have hne : ¬ k = kv0.1 := fun h => hnotin (h ▸ hk_in)
      have hrec := ih k v hmem2 hndrest hsec
      by_cases h0 : isSecretVariable kv0.1 = true
      · simp [List.filter_cons, h0, List.count_cons, hrec, hne]
      · rw [Bool.not_eq_true] at h0
        simp [List.filter_cons, h0, hrec]

theorem count_envvars_zero (env : EnvMap) (k v : String)
    (hk : ¬ '=' ∈ k.data) (hkeys : ∀ kv ∈ env, ¬ '=' ∈ (kv : String × String).1.data)
    (h : ¬ k ∈ env.map Prod.fst) :
    ((env.filter (fun kv => !isSecretVariable kv.1)).map
      (fun kv => kv.1 ++ "=" ++ kv.2)).count (k ++ "=" ++ v) = 0 := by
  rw [List.count_eq_zero]
  intro hmem
  rcases List.mem_map.1 hmem with ⟨kv, hkv, heq⟩
  have hkvmem := (List.mem_filter.1 hkv).1
  obtain ⟨h1, h2⟩ := keyval_inj kv.1 kv.2 k v (hkeys kv hkvmem) hk heq
  exact h (List.mem_map.2 ⟨kv, hkvmem, h1⟩)

theorem count_envvars_one (env : EnvMap) : ∀ k v : String, (k, v) ∈ env →
    (env.map Prod.fst).Nodup → (∀ kv ∈ env, ¬ '=' ∈ (kv : String × String).1.data) →
    isSecretVariable k = false →
    ((env.filter (fun kv => !isSecretVariable kv.1)).map
      (fun kv => kv.1 ++ "=" ++ kv.2)).count (k ++ "=" ++ v) = 1 := by
  induction env with
  | nil => intro k v h; cases h
  | cons kv0 rest ih =>
    intro k v hmem hnd hkeys hsec
    rw [List.map_cons, List.nodup_cons] at hnd
    obtain ⟨hnotin, hndrest⟩ := hnd
    have hkeysrest : ∀ kv ∈ rest, ¬ '=' ∈ (kv : String × String).1.data :=
      fun kv h => hkeys kv (List.mem_cons_of_mem _ h)
    rcases List.mem_cons.1 hmem with heq | hmem2
    · subst heq
      have hkfree : ¬ '=' ∈ k.data := hkeys (k, v) (List.mem_cons_self _ _)
      have h0 := count_envvars_zero rest k v hkfree hkeysrest hnotin
      have hnsec : (!isSecretVariable k) = true := by simp [hsec]
      simp [List.filter_cons, hnsec, List.count_cons, h0]
    · have hk_in : k ∈ rest.map Prod.fst := List.mem_map.2 ⟨(k, v), hmem2, rfl⟩
      have hne : ¬ k = kv0.1 := fun h => hnotin (h ▸ hk_in)
      have hkfree : ¬ '=' ∈ k.data := hkeys (k, v) hmem
      have hk0free : ¬ '=' ∈ kv0.1.data := hkeys kv0 (List.mem_cons_self _ _)
      have hrec := ih k v hmem2 hndrest hkeysrest hsec
      by_cases h0 : isSecretVariable kv0.1 = true
      · simp [List.filter_cons, h0, hrec]
      · rw [Bool.not_eq_true] at h0
        have hnestr : ¬ (k ++ "=" ++ v) = (kv0.1 ++ "=" ++ kv0.2) := by
          intro hstr
          exact hne (keyval_inj k v kv0.1 kv0.2 hkfree hk0free hstr).1
        simp [List.filter_cons, h0, List.count_cons, hrec, hnestr]

theorem not_mem_secrets_list (env : EnvMap) (k : String) (hns : isSecretVariable k = false) :
    ¬ k ∈ (env.filter (fun kv => isSecretVariable kv.1)).map (fun kv => kv.1) := by
  intro h
  rcases List.mem_map.1 h with ⟨kv, hkv, rfl⟩
  have h2 := (List.mem_filter.1 hkv).2
  rw [hns] at h2
  cases h2

theorem not_mem_envvars_list (env : EnvMap) (k w : String)
    (hsec : isSecretVariable k = true) (hk : ¬ '=' ∈ k.data)
    (hkeys : ∀ kv ∈ env, ¬ '=' ∈ (kv : String × String).1.data) :
    ¬ (k ++ "=" ++ w) ∈
      (env.filter (fun kv => !isSecretVariable kv.1)).map (fun kv => kv.1 ++ "=" ++ kv.2) := by
  intro h
  rcases List.mem_map.1 h with ⟨kv, hkv, heq⟩
  obtain ⟨h1, _⟩ := keyval_inj kv.1 kv.2 k w (hkeys kv (List.mem_filter.1 hkv).1) hk heq
  have h2 := (List.mem_filter.1 hkv).2
  rw [h1, hsec] at h2
  cases h2

/-! ### Text-level containment in the rendered orchestration output -/

theorem substr_compose_secret (dc : DockerConfig) (k : String)
    (hk : k ∈ (composePartition dc.environment).2) :
    substrB ("      - " ++ toLowerStr k ++ "\n") (generateComposeContent dc) = true := by
  have henvne : 0 < dc.environment.length := by
    rw [composePartition_eq] at hk
    rcases List.mem_map.1 hk with ⟨kv, hkv, rfl⟩
    exact List.length_pos.2 (List.ne_nil_of_mem (List.mem_filter.1 hkv).1)
  have hsecne : 0 < (composePartition dc.environment).2.length :=
    List.length_pos.2 (List.ne_nil_of_mem hk)
  have hmem : ("      - " ++ toLowerStr k ++ "\n") ∈
      (composePartition dc.environment).2.map (fun sec => "      - " ++ toLowerStr sec ++ "\n") :=
    List.mem_map.2 ⟨k, hk, rfl⟩
  simp only [generateComposeContent]
  rw [if_pos henvne, if_pos hsecne]
  apply substrB_append_right
  apply substrB_append_right
  apply substrB_append_right
  exact substrB_concatAll _ _ hmem

theorem substr_compose_envvar (dc : DockerConfig) (e : String)
    (he : e ∈ (composePartition dc.environment).1) :
    substrB ("      - " ++ e ++ "\n") (generateComposeContent dc) = true := by
  have henvne : 0 < dc.environment.length := by
    rw [composePartition_eq] at he
    rcases List.mem_map.1 he with ⟨kv, hkv, rfl⟩
    exact List.length_pos.2 (List.ne_nil_of_mem (List.mem_filter.1 hkv).1)
  have hevne : 0 < (composePartition dc.environment).1.length :=
    List.length_pos.2 (List.ne_nil_of_mem he)
  have hmem : ("      - " ++ e ++ "\n") ∈
      (composePartition dc.environment).1.map (fun env => "      - " ++ env ++ "\n") :=
    List.mem_map.2 ⟨e, he, rfl⟩
  simp only [generateComposeContent]
  rw [if_pos henvne, if_pos hevne]
  apply substrB_append_right
  apply substrB_append_left
  apply substrB_append_right
  exact substrB_concatAll _ _ hmem

/-! ### Claim C1 (amended part) -/

/-- Claim C1 amended: the renderer itself satisfies the round trip — for
any configuration whose environment has pairwise-distinct, `=`-free keys,
every key is routed to exactly one of the two emitted lists (secret-like
keys once into the service secrets list and never into the plain list;
other keys once as `key=value` into the plain list and never into the
secrets list), and the corresponding line occurs in the rendered
orchestration text. The claim as stated fails only because the Ruby
profile replaces the synthesized environment (see the counterexample). -/
theorem claim_C1_round_trip (dc : DockerConfig) (k v : String)
    (hmem : (k, v) ∈ dc.environment)
    (hnd : (dc.environment.map Prod.fst).Nodup)
    (hkeys : ∀ kv ∈ dc.environment, ¬ '=' ∈ (kv : String × String).1.data) :
    (isSecretVariable k = true →
      (composePartition dc.environment).2.count k = 1 ∧
      (∀ w, ¬ (k ++ "=" ++ w) ∈ (composePartition dc.environment).1) ∧
      substrB ("      - " ++ toLowerStr k ++ "\n") (generateComposeContent dc) = true) ∧
    (isSecretVariable k = false →
      (composePartition dc.environment).1.count (k ++ "=" ++ v) = 1 ∧
      ¬ k ∈ (composePartition dc.environment).2 ∧
      substrB ("      - " ++ k ++ "=" ++ v ++ "\n") (generateComposeContent dc) = true) := by
  have hkfree : ¬ '=' ∈ k.data := hkeys (k, v) hmem
  constructor
  · intro hsec
    refine ⟨?_, ?_, ?_⟩
    · rw [composePartition_eq]
      exact count_secrets_one dc.environment k v hmem hnd hsec
    · intro w
      rw [composePartition_eq]
      exact not_mem_envvars_list dc.environment k w hsec hkfree hkeys
    · apply substr_compose_secret
      rw [composePartition_eq]
      exact List.mem_map.2 ⟨(k, v), List.mem_filter.2 ⟨hmem, hsec⟩, rfl⟩
  · intro hsec
    refine ⟨?_, ?_, ?_⟩
    · rw [composePartition_eq]
      exact count_envvars_one dc.environment k v hmem hnd hkeys hsec
    · rw [composePartition_eq]
      exact not_mem_secrets_list dc.environment k hsec
    · have he : (k ++ "=" ++ v) ∈ (composePartition dc.environment).1 := by
        rw [composePartition_eq]
        exact List.mem_map.2 ⟨(k, v), List.mem_filter.2 ⟨hmem, by simp [hsec]⟩, rfl⟩
      have h := substr_compose_envvar dc (k ++ "=" ++ v) he
      simpa [String.append_assoc] using h

/-- Fixture configuration for the C1 witness. -/
def dcC1w : DockerConfig :=
  ⟨"img", [], [], [("DB_PASSWORD", "hunter2"), ("RAILS_ENV", "production")], true, []⟩

/-- Witness for C1 amended at a concrete configuration. -/
theorem claim_C1_witness :
    (composePartition dcC1w.environment).2.count "DB_PASSWORD" = 1 ∧
    substrB ("      - " ++ toLowerStr "DB_PASSWORD" ++ "\n") (generateComposeContent dcC1w) = true ∧
    (composePartition dcC1w.environment).1.count ("RAILS_ENV" ++ "=" ++ "production") = 1 :=
  ⟨((claim_C1_round_trip dcC1w "DB_PASSWORD" "hunter2" (by decide) (by decide) (by decide)).1
      (by decide)).1,
   ((claim_C1_round_trip dcC1w "DB_PASSWORD" "hunter2" (by decide) (by decide) (by decide)).1
      (by decide)).2.2,
   ((claim_C1_round_trip dcC1w "RAILS_ENV" "production" (by decide) (by decide) (by decide)).2
      (by decide)).1⟩

end Docktool
